import Mathlib

/-!
Formal model of the session-persistence and login-state reconciliation core
of the Instagram DM bot (src/main.py), as a shallow embedding.

External effects (the Selenium driver, the filesystem, the network) are
modelled by an environment record `Env` of oracles fixing the outcome of
each effectful call site: a bounded element wait yields one of
`found` / `timeout` / `driverError`, a navigation or file write either
succeeds or raises, and so on.  Python `try/except` blocks are translated
into the corresponding `match` on the fallible step, exactly where the
source places them.  Wall-clock delays (`human_delay`, per-character typing
jitter) have no observable effect in this model and are elided.
-/

/-- Outcome of a bounded Selenium wait (`WebDriverWait(...).until(...)`):
the element was found, the wait timed out (`TimeoutException`), or the
driver raised some other exception. -/
inductive ProbeOutcome where
  | found
  | timeout
  | driverError
deriving DecidableEq, Repr

/-- The five logged-in DOM indicators scanned by `is_logged_in`
(src/main.py lines 434-440), abstracted from their XPath strings. -/
inductive Indicator where
  | directLink
  | directSvg
  | accountsEdit
  | followButton
  | loggedInDiv
deriving DecidableEq, Repr

/-- The three login-page indicators scanned by `is_logged_in`
(src/main.py lines 454-458). -/
inductive LoginIndicator where
  | usernameInput
  | passwordInput
  | submitButton
deriving DecidableEq, Repr

/-- Observable events of the `login_instagram` flow, in the order the code
performs them; used to state ordering properties. -/
inductive LEvent where
  | navigate
  | acceptCookies
  | typeUsername
  | typePassword
  | submit
  | dismissSaveInfo
  | dismissNotifications
  | verifyWait
deriving DecidableEq, Repr

/-- Methods invoked by `smart_login`, recorded as a call trace. -/
inductive Call where
  | setupDriver
  | loadSession
  | isLoggedIn
  | loginInstagram
  | saveSession
deriving DecidableEq, Repr

/-- A browser cookie record, as persisted in the cookies JSON file. -/
structure Cookie where
  name : String
  value : String
  domain : String
  path : String
  expiry : Option Nat
deriving DecidableEq, Repr

/-- The session dictionary pickled by `save_session`
(src/main.py lines 369-374). -/
structure SessionData where
  last_login : String
  user_agent : String
  current_url : String
  processed_messages : List String
deriving DecidableEq, Repr

/-- State of one on-disk file: absent, present but undeserializable
(`pickle.load` / `json.load` raises), or present with decoded content. -/
inductive FileState (α : Type) where
  | missing
  | corrupt
  | good (content : α)
deriving DecidableEq, Repr

/-- The two persisted files owned by `PersistentInstagramDMBot`. -/
structure FS where
  sessionFile : FileState SessionData
  cookiesFile : FileState (List Cookie)
deriving DecidableEq, Repr

/-- A message dict as constructed by `get_new_messages`
(src/main.py lines 227-231). -/
structure Message where
  id : String
  content : String
  url : Option String
deriving DecidableEq, Repr

/-- In-memory bot state relevant to the claims: the processed-message id
set (`self.processed_messages`).  A Python `set` of strings is represented
as a duplicate-free list; only its membership is ever observed. -/
structure BotState where
  processed_messages : List String
deriving DecidableEq, Repr

/-- Python `set.add`: insert the element unless already present. -/
def pySetInsert (x : String) (l : List String) : List String :=
  if x ∈ l then l else x :: l

/-- Python `set(lst)`: the elements of `lst` without duplicates. -/
def pySetOfList (l : List String) : List String :=
  l.dedup

/-- Environment of oracles fixing the outcome of every effectful call site
in one run.  A `Bool` field is `true` when the call returns normally and
`false` when it raises; `ProbeOutcome` fields are bounded waits. -/
structure Env where
  /-- `setup_driver` (Chrome start) returns normally. -/
  setupDriverOk : Bool
  /-- `driver.get("https://www.instagram.com")` inside `load_session`. -/
  loadNavOk : Bool
  /-- `driver.refresh()` after cookie injection in `load_session`. -/
  refreshOk : Bool
  /-- `driver.add_cookie(c)` per cookie: `ok` or raises. -/
  tryAddCookie : Cookie → Except Unit Unit
  /-- `driver.get("https://www.instagram.com")` inside `is_logged_in`. -/
  probeNavOk : Bool
  /-- Bounded 5s wait for each logged-in indicator in `is_logged_in`. -/
  probe : Indicator → ProbeOutcome
  /-- `find_element` for each login-page indicator in `is_logged_in`. -/
  findLoginElem : LoginIndicator → Except Unit Unit
  /-- `driver.get(login URL)` inside `login_instagram`. -/
  navLoginOk : Bool
  /-- Bounded 5s wait for the cookie-consent button. -/
  acceptCookiesOutcome : ProbeOutcome
  /-- Bounded 10s wait for the username field. -/
  usernameFieldOutcome : ProbeOutcome
  /-- `find_element(By.NAME, "password")` returns normally. -/
  passwordFieldOk : Bool
  /-- `find_element` of the submit button returns normally. -/
  submitBtnOk : Bool
  /-- Bounded 5s wait for the save-login-info dialog in
  `handle_login_challenges`. -/
  saveInfoDialog : ProbeOutcome
  /-- Bounded 5s wait for the notifications dialog in
  `handle_login_challenges`. -/
  notifDialog : ProbeOutcome
  /-- Bounded 10s wait for the post-login marker in `login_instagram`. -/
  verifyOutcome : ProbeOutcome
  /-- `driver.get_cookies()` in `save_session` returns normally. -/
  getCookiesOk : Bool
  /-- The cookie list `driver.get_cookies()` returns. -/
  driverCookies : List Cookie
  /-- Writing the cookies JSON file succeeds. -/
  writeCookiesOk : Bool
  /-- Gathering session info and pickling it to the session file succeeds. -/
  writeSessionOk : Bool
  /-- `datetime.now().isoformat()`. -/
  nowIso : String
  /-- `navigator.userAgent` reported by the driver. -/
  userAgent : String
  /-- `driver.current_url`. -/
  currentUrl : String
  /-- Bounded 10s wait for the clickable DM link in `navigate_to_dms`. -/
  navDmsOutcome : ProbeOutcome
  /-- Bounded 10s verification wait in `navigate_to_dms`. -/
  verifyDmsOutcome : ProbeOutcome
  /-- Candidate messages scraped by `get_new_messages` before the
  processed-set filter. -/
  newMessages : List Message
  /-- Outcome of the Buffer create-update POST for a message:
  HTTP status code, or a raised `requests` exception. -/
  postStatus : Message → Except Unit Nat
  /-- Outcome of the Buffer user.json GET in `test_buffer_connection`. -/
  bufferConnStatus : Except Unit Nat

/-- Whether one `driver.add_cookie` call returned normally. -/
def addSucceeds (tryAdd : Cookie → Except Unit Unit) (c : Cookie) : Bool :=
  match tryAdd c with
  | Except.ok _ => true
  | Except.error _ => false

/-- The cookie-injection loop of `load_session` (src/main.py lines
407-412): each cookie is added inside its own `try`, and a raising
`add_cookie` is skipped (`except Exception: continue`).  Returns the list
of cookies actually injected into the driver. -/
def inject_cookies (tryAdd : Cookie → Except Unit Unit) :
    List Cookie → List Cookie
  | [] => []
  | c :: cs =>
    match tryAdd c with
    | Except.ok _ => c :: inject_cookies tryAdd cs
    | Except.error _ => inject_cookies tryAdd cs

/-- The ordered list `logged_in_indicators` of `is_logged_in`. -/
def logged_in_indicators : List Indicator :=
  [Indicator.directLink, Indicator.directSvg, Indicator.accountsEdit,
   Indicator.followButton, Indicator.loggedInDiv]

/-- The ordered list `login_indicators` of `is_logged_in`. -/
def login_indicators : List LoginIndicator :=
  [LoginIndicator.usernameInput, LoginIndicator.passwordInput,
   LoginIndicator.submitButton]

/-- The first loop of `is_logged_in` (lines 442-451): for each indicator a
bounded wait; on success return `True` (`some true`); on
`TimeoutException` continue; on any other driver exception the outer
handler returns `False` (`some false`).  `none` means the loop fell
through. -/
def scan_indicators (probe : Indicator → ProbeOutcome) :
    List Indicator → Option Bool
  | [] => none
  | i :: rest =>
    match probe i with
    | ProbeOutcome.found => some true
    | ProbeOutcome.timeout => scan_indicators probe rest
    | ProbeOutcome.driverError => some false

/-- The second loop of `is_logged_in` (lines 460-467): `find_element` per
login indicator; if it returns an element the function returns `False`, if
it raises the loop continues; after the loop the function returns `False`
as well. -/
def login_scan (findElem : LoginIndicator → Except Unit Unit) :
    List LoginIndicator → Bool
  | [] => false
  | i :: rest =>
    match findElem i with
    | Except.ok _ => false
    | Except.error _ => login_scan findElem rest

/-- Boolean result of running the indicator scan followed by the
login-page scan, on a given indicator list. -/
def scan_result (env : Env) (l : List Indicator) : Bool :=
  match scan_indicators env.probe l with
  | some b => b
  | none => login_scan env.findLoginElem login_indicators

/-- `PersistentInstagramDMBot.is_logged_in` (lines 427-473): navigate to
the site root (a raising `get` is caught by the outer handler, returning
`False`), then scan the logged-in indicators and, failing that, the
login-page indicators. -/
def is_logged_in (env : Env) : Bool :=
  if env.probeNavOk = false then false
  else scan_result env logged_in_indicators

/-- `InstagramDMBot.handle_login_challenges` (lines 146-170): two
independently bounded dismissal attempts, each with its own
`try/except TimeoutException: pass`; a non-timeout driver error is caught
by the outer handler (a warning), ending the method early.  Returns the
trace of attempts made; the method never raises and has no return value. -/
def handle_login_challenges (env : Env) : List LEvent :=
  match env.saveInfoDialog with
  | ProbeOutcome.driverError => [LEvent.dismissSaveInfo]
  | _ =>
    -- the notifications attempt runs whatever its outcome: a found dialog
    -- is clicked, a timeout is passed over, an error is caught by the
    -- outer handler right after
    [LEvent.dismissSaveInfo, LEvent.dismissNotifications]

/-- `InstagramDMBot.login_instagram` (lines 84-144): navigate to the login
page, tolerantly dismiss the cookie banner, type username and password
(per-character, with jitter), submit, run `handle_login_challenges`, then
verify login with a bounded wait for the post-login marker.  Any uncaught
exception reaches the outer handler, which returns `False`.  Returns the
result together with the event trace. -/
def login_instagram (env : Env) : Bool × List LEvent :=
  if env.navLoginOk = false then (false, [LEvent.navigate])
  else
    match env.acceptCookiesOutcome with
    | ProbeOutcome.driverError =>
      (false, [LEvent.navigate, LEvent.acceptCookies])
    | _ =>
      match env.usernameFieldOutcome with
      | ProbeOutcome.found =>
        if env.passwordFieldOk = false then
          (false, [LEvent.navigate, LEvent.acceptCookies,
                   LEvent.typeUsername])
        else if env.submitBtnOk = false then
          (false, [LEvent.navigate, LEvent.acceptCookies,
                   LEvent.typeUsername, LEvent.typePassword])
        else
          let tr := [LEvent.navigate, LEvent.acceptCookies,
                     LEvent.typeUsername, LEvent.typePassword,
                     LEvent.submit] ++ handle_login_challenges env
                    ++ [LEvent.verifyWait]
          match env.verifyOutcome with
          | ProbeOutcome.found => (true, tr)
          | ProbeOutcome.timeout => (false, tr)
          | ProbeOutcome.driverError => (false, tr)
      | ProbeOutcome.timeout =>
        (false, [LEvent.navigate, LEvent.acceptCookies])
      | ProbeOutcome.driverError =>
        (false, [LEvent.navigate, LEvent.acceptCookies])

/-- Step two of `load_session` (lines 397-421): if the cookies file
exists, navigate to the site root (a raise escapes to the outer handler),
decode the file (a raise escapes likewise), inject each cookie through
`inject_cookies`, refresh, and return `True`; with no cookies file, return
`False`.  `Except.error s` models an exception escaping the `try` body
with in-memory state `s`. -/
def load_cookies_step (env : Env) (fs : FS) (st : BotState) :
    Except BotState (BotState × Bool) :=
  match fs.cookiesFile with
  | FileState.missing => Except.ok (st, false)
  | FileState.corrupt =>
    -- driver.get either raises here, or json.load raises right after
    Except.error st
  | FileState.good cookies =>
    if env.loadNavOk = false then Except.error st
    else
      let _injected := inject_cookies env.tryAddCookie cookies
      if env.refreshOk = false then Except.error st
      else Except.ok (st, true)

/-- The `try` body of `load_session` (lines 388-421): if the session file
exists, unpickle it (a corrupt file raises) and replace
`processed_messages` with the decoded set; then run the cookie step. -/
def load_session_body (env : Env) (fs : FS) (st : BotState) :
    Except BotState (BotState × Bool) :=
  match fs.sessionFile with
  | FileState.corrupt => Except.error st
  | FileState.missing => load_cookies_step env fs st
  | FileState.good d =>
    load_cookies_step env fs
      { processed_messages := pySetOfList d.processed_messages }

/-- `PersistentInstagramDMBot.load_session` (lines 386-425): the `try`
body wrapped in `except Exception: return False`, so the method never
raises to its caller.  Returns the new in-memory state and the boolean
result; it performs no file write. -/
def load_session (env : Env) (fs : FS) (st : BotState) : BotState × Bool :=
  match load_session_body env fs st with
  | Except.ok r => r
  | Except.error s => (s, false)

/-- `PersistentInstagramDMBot.save_session` (lines 360-384): fetch the
driver cookies and write them to the cookies file, then gather session
info and pickle it to the session file; any raise is caught and mapped to
`False`, leaving whatever was written so far.  Returns the resulting
filesystem and the boolean result. -/
def save_session (env : Env) (st : BotState) (fs : FS) : FS × Bool :=
  if env.getCookiesOk = false then (fs, false)
  else if env.writeCookiesOk = false then (fs, false)
  else
    let fs1 : FS :=
      { fs with cookiesFile := FileState.good env.driverCookies }
    if env.writeSessionOk = false then (fs1, false)
    else
      ({ fs1 with
          sessionFile := FileState.good
            { last_login := env.nowIso
              user_agent := env.userAgent
              current_url := env.currentUrl
              processed_messages := st.processed_messages } }, true)

/-- Result of one `smart_login` run: final in-memory state, final
filesystem, boolean result, and the trace of methods invoked. -/
structure SmartResult where
  state : BotState
  fs : FS
  ok : Bool
  calls : List Call
deriving DecidableEq, Repr

/-- `PersistentInstagramDMBot.smart_login` (lines 475-500): set up the
driver (a raise is caught by the outer handler, returning `False`), load
the persisted session, probe the logged-in state; on a positive probe
return `True` at once, otherwise run `login_instagram` and, on success,
`save_session` (its boolean result is ignored) before returning `True`. -/
def smart_login (env : Env) (fs : FS) (st : BotState) : SmartResult :=
  if env.setupDriverOk = false then
    { state := st, fs := fs, ok := false, calls := [Call.setupDriver] }
  else
    let st1 := (load_session env fs st).1
    if is_logged_in env then
      { state := st1, fs := fs, ok := true,
        calls := [Call.setupDriver, Call.loadSession, Call.isLoggedIn] }
    else if (login_instagram env).1 then
      { state := st1, fs := (save_session env st1 fs).1, ok := true,
        calls := [Call.setupDriver, Call.loadSession, Call.isLoggedIn,
                  Call.loginInstagram, Call.saveSession] }
    else
      { state := st1, fs := fs, ok := false,
        calls := [Call.setupDriver, Call.loadSession, Call.isLoggedIn,
                  Call.loginInstagram] }

/-- `InstagramDMBot.navigate_to_dms` (lines 172-198): bounded wait for a
clickable DM link (a timeout raises past the inner code to the outer
handler, returning `False`), click it, then a bounded verification wait
whose timeout is caught and mapped to `False`. -/
def navigate_to_dms (env : Env) : Bool :=
  match env.navDmsOutcome with
  | ProbeOutcome.found =>
    match env.verifyDmsOutcome with
    | ProbeOutcome.found => true
    | ProbeOutcome.timeout => false
    | ProbeOutcome.driverError => false
  | ProbeOutcome.timeout => false
  | ProbeOutcome.driverError => false

/-- `InstagramDMBot.get_new_messages` (lines 200-248), reduced to its
observable effect on the claims: the scraped candidates whose ids are not
already in `processed_messages`. -/
def get_new_messages (env : Env) (st : BotState) : List Message :=
  env.newMessages.filter (fun m => decide (m.id ∉ st.processed_messages))

/-- `InstagramDMBot.add_to_buffer_fixed` (lines 256-293): with no URL in
the message return `False`; otherwise POST to Buffer — on HTTP 200 add the
message id to `processed_messages` and return `True`, on any other status
or a raised exception return `False` with the state unchanged. -/
def add_to_buffer_fixed (env : Env) (st : BotState) (msg : Message) :
    BotState × Bool :=
  match msg.url with
  | none => (st, false)
  | some _ =>
    match env.postStatus msg with
    | Except.error _ => (st, false)
    | Except.ok code =>
      if code = 200 then
        ({ processed_messages := pySetInsert msg.id st.processed_messages },
         true)
      else (st, false)

/-- Result of one `run_scheduled_check` run. -/
structure RunResult where
  state : BotState
  fs : FS
  ok : Bool

/-- `PersistentInstagramDMBot.run_scheduled_check` (lines 502-538):
`smart_login`, then `navigate_to_dms`, then process each new message
through `add_to_buffer_fixed`, then `save_session`; every failure of the
first two steps returns `False`, and the outer handler maps any raise to
`False`.  The `finally` block closes the driver (modelled as
infallible). -/
def run_scheduled_check (env : Env) (fs : FS) (st : BotState) : RunResult :=
  let r := smart_login env fs st
  if r.ok = false then { state := r.state, fs := r.fs, ok := false }
  else if navigate_to_dms env = false then
    { state := r.state, fs := r.fs, ok := false }
  else
    let msgs := get_new_messages env r.state
    let st2 := msgs.foldl (fun s m => (add_to_buffer_fixed env s m).1)
      r.state
    { state := st2, fs := (save_session env st2 r.fs).1, ok := true }

/-- The four environment variables read by `setup_environment_variables`
(lines 540-549); `none` models an unset variable and `some ""` an empty
one (both falsy in the `__main__` check). -/
structure Config where
  username : Option String
  password : Option String
  buffer_token : Option String
  buffer_profile_id : Option String

/-- Truthiness of one configuration value (`if not value`). -/
def envPresent : Option String → Bool
  | none => false
  | some s => !s.isEmpty

/-- The `missing_vars` list of `__main__` (line 579). -/
def missing_vars (cfg : Config) : List String :=
  (if envPresent cfg.username then [] else ["username"]) ++
  (if envPresent cfg.password then [] else ["password"]) ++
  (if envPresent cfg.buffer_token then [] else ["buffer_token"]) ++
  (if envPresent cfg.buffer_profile_id then [] else ["buffer_profile_id"])

/-- `InstagramDMBot.test_buffer_connection` (lines 67-82): `True` exactly
when the Buffer user.json GET returns status 200; a raised exception is
caught and mapped to `False`. -/
def test_buffer_connection (env : Env) : Bool :=
  match env.bufferConnStatus with
  | Except.ok code => code = 200
  | Except.error _ => false

/-- Fresh bot state built by `InstagramDMBot.__init__`. -/
def initState : BotState := { processed_messages := [] }

/-- The `__main__` block (lines 569-606): validate the configuration
(missing variables exit 1 before any browser work), test the Buffer
connection (failure exits 1, still before any browser work), then run the
scheduled check and map its boolean to the exit code.  Returns the exit
code paired with whether browser work was started. -/
def main_run (cfg : Config) (env : Env) (fs : FS) : Nat × Bool :=
  if (missing_vars cfg).isEmpty = false then (1, false)
  else if test_buffer_connection env = false then (1, false)
  else if (run_scheduled_check env fs initState).ok then (0, true)
  else (1, true)

/-- A well-formed cookie fixture. -/
def cookieGood : Cookie :=
  { name := "sessionid", value := "abc123", domain := ".instagram.com",
    path := "/", expiry := some 1700000000 }

/-- A fixture for a cookie whose injection the driver rejects. -/
def cookieBad : Cookie :=
  { name := "csrftoken", value := "zzz", domain := ".instagram.com",
    path := "/", expiry := none }

/-- A driver that rejects exactly the cookies named `csrftoken`. -/
def tryAddRejecting : Cookie → Except Unit Unit := fun c =>
  if c.name = "csrftoken" then Except.error () else Except.ok ()

/-- An empty filesystem: neither persisted file exists. -/
def fsEmpty : FS :=
  { sessionFile := FileState.missing, cookiesFile := FileState.missing }

/-- A fully healthy environment: every driver call succeeds, every
logged-in marker is found, login verification succeeds, persistence
succeeds, and the Buffer API answers 200. -/
def envBase : Env :=
  { setupDriverOk := true
    loadNavOk := true
    refreshOk := true
    tryAddCookie := tryAddRejecting
    probeNavOk := true
    probe := fun _ => ProbeOutcome.found
    findLoginElem := fun _ => Except.error ()
    navLoginOk := true
    acceptCookiesOutcome := ProbeOutcome.timeout
    usernameFieldOutcome := ProbeOutcome.found
    passwordFieldOk := true
    submitBtnOk := true
    saveInfoDialog := ProbeOutcome.found
    notifDialog := ProbeOutcome.timeout
    verifyOutcome := ProbeOutcome.found
    getCookiesOk := true
    driverCookies := [cookieGood]
    writeCookiesOk := true
    writeSessionOk := true
    nowIso := "2026-10-12T00:00:00"
    userAgent := "Mozilla/5.0"
    currentUrl := "https://www.instagram.com/"
    navDmsOutcome := ProbeOutcome.found
    verifyDmsOutcome := ProbeOutcome.found
    newMessages := []
    postStatus := fun _ => Except.ok 200
    bufferConnStatus := Except.ok 200 }

/-- Environment in which the logged-in probe fails (every marker wait
times out) and the interactive login also fails (post-login verification
times out). -/
def envNoSession : Env :=
  { envBase with
      probe := fun _ => ProbeOutcome.timeout
      verifyOutcome := ProbeOutcome.timeout }

/-- Environment in which the logged-in probe fails, the interactive login
succeeds, but `save_session` fails at its first step
(`driver.get_cookies()` raises). -/
def envSaveFails : Env :=
  { envBase with
      probe := fun _ => ProbeOutcome.timeout
      getCookiesOk := false }

/-- C1: smartLogin never calls interactiveLogin when the logged-in probe
succeeds after loading the persisted session: in every run where
`setup_driver` returns and `is_logged_in` is `true`, `smart_login` returns
`true` and `login_instagram` is not in its call trace. -/
theorem smart_login_short_circuit (env : Env) (fs : FS) (st : BotState)
    (h1 : env.setupDriverOk = true)
    (h2 : is_logged_in env = true) :
    (smart_login env fs st).ok = true ∧
      Call.loginInstagram ∉ (smart_login env fs st).calls := by
  simp [smart_login, h1, h2]

/-- Witness for C1: in the healthy environment the probe is positive, so
`smart_login` succeeds without the credential-entry path. -/
theorem smart_login_short_circuit_w :
    envBase.setupDriverOk = true ∧ is_logged_in envBase = true ∧
      ((smart_login envBase fsEmpty initState).ok = true ∧
        Call.loginInstagram ∉ (smart_login envBase fsEmpty initState).calls) :=
  ⟨rfl, rfl, smart_login_short_circuit envBase fsEmpty initState rfl rfl⟩

/-- C2: if the logged-in probe returns false and interactive login also
fails, `smart_login` returns false, never calls `save_session`, and the
persisted files are unchanged. -/
theorem smart_login_fail_preserves_files (env : Env) (fs : FS)
    (st : BotState)
    (h1 : env.setupDriverOk = true)
    (h2 : is_logged_in env = false)
    (h3 : (login_instagram env).1 = false) :
    (smart_login env fs st).ok = false ∧
      Call.saveSession ∉ (smart_login env fs st).calls ∧
      (smart_login env fs st).fs = fs := by
  simp [smart_login, h1, h2, h3]

/-- Witness for C2: with every probe timing out and login verification
timing out, `smart_login` fails and leaves the filesystem alone. -/
theorem smart_login_fail_preserves_files_w :
    is_logged_in envNoSession = false ∧
      (login_instagram envNoSession).1 = false ∧
      ((smart_login envNoSession fsEmpty initState).ok = false ∧
        Call.saveSession ∉ (smart_login envNoSession fsEmpty initState).calls ∧
        (smart_login envNoSession fsEmpty initState).fs = fsEmpty) :=
  ⟨rfl, rfl,
    smart_login_fail_preserves_files envNoSession fsEmpty initState rfl rfl
      rfl⟩

/-- C9: `smart_login` ignores the boolean result of persistence: after a
successful interactive login it returns `true` even in environments where
`save_session` always returns `false`, and `save_session` does appear in
its call trace. -/
theorem smart_login_ignores_save_result (env : Env) (fs : FS)
    (st : BotState)
    (h1 : env.setupDriverOk = true)
    (h2 : is_logged_in env = false)
    (h3 : (login_instagram env).1 = true)
    (h4 : ∀ s f, (save_session env s f).2 = false) :
    (smart_login env fs st).ok = true ∧
      Call.saveSession ∈ (smart_login env fs st).calls := by
  simp [smart_login, h1, h2, h3]

/-- Witness for C9: `get_cookies` raising makes every `save_session` call
return `false`, yet `smart_login` still reports success. -/
theorem smart_login_ignores_save_result_w :
    is_logged_in envSaveFails = false ∧
      (login_instagram envSaveFails).1 = true ∧
      (∀ s f, (save_session envSaveFails s f).2 = false) ∧
      ((smart_login envSaveFails fsEmpty initState).ok = true ∧
        Call.saveSession ∈ (smart_login envSaveFails fsEmpty initState).calls) :=
  ⟨rfl, rfl, fun _ _ => rfl,
    smart_login_ignores_save_result envSaveFails fsEmpty initState rfl rfl
      rfl (fun _ _ => rfl)⟩

/-- The login-page scan of `is_logged_in` returns `False` on every input:
both the found branch and the fall-through return `False`. -/
theorem login_scan_eq_false (f : LoginIndicator → Except Unit Unit)
    (l : List LoginIndicator) : login_scan f l = false := by
  induction l with
  | nil => rfl
  | cons i rest ih =>
    unfold login_scan
    cases f i <;> simp [ih]

/-- With no driver error among the scanned indicators, the indicator scan
reduces to a boolean existence check. -/
theorem scan_indicators_no_error (probe : Indicator → ProbeOutcome)
    (l : List Indicator)
    (h : ∀ i ∈ l, probe i ≠ ProbeOutcome.driverError) :
    scan_indicators probe l =
      (if l.any (fun i => probe i == ProbeOutcome.found) then some true
       else none) := by
  induction l with
  | nil => rfl
  | cons i rest ih =>
    unfold scan_indicators
    cases hp : probe i with
    | found => simp [hp]
    | timeout =>
      rw [ih (fun j hj => h j (List.mem_cons_of_mem i hj))]
      simp [hp]
    | driverError => exact absurd hp (h i (List.mem_cons_self i rest))

/-- With no driver error among the scanned indicators, the combined scan
result is the boolean existence check. -/
theorem scan_result_eq_any (env : Env) (l : List Indicator)
    (h : ∀ i ∈ l, env.probe i ≠ ProbeOutcome.driverError) :
    scan_result env l =
      l.any (fun i => env.probe i == ProbeOutcome.found) := by
  unfold scan_result
  rw [scan_indicators_no_error env.probe l h]
  by_cases ha : l.any (fun i => env.probe i == ProbeOutcome.found) = true
  · simp [ha]
  · simp [Bool.eq_false_iff.mpr ha, login_scan_eq_false]

/-- Environment in which the bounded wait for the first logged-in
indicator raises a non-timeout driver exception while the second
indicator is present and findable. -/
def envScanAborted : Env :=
  { envBase with
      probe := fun i =>
        match i with
        | Indicator.directLink => ProbeOutcome.driverError
        | Indicator.directSvg => ProbeOutcome.found
        | _ => ProbeOutcome.timeout }

/-- C3 counterexample: with a driver exception on the first indicator wait
and the second marker findable, a marker from the list is located within
its bounded wait yet `is_logged_in` returns `false` (the exception aborts
the scan through the outer handler), refuting the claimed iff; and on the
permuted list that scans the findable marker first the scan returns
`true`, so the order of the list does change the boolean result. -/
theorem is_logged_in_order_cex :
    envScanAborted.probeNavOk = true ∧
    (∃ i ∈ logged_in_indicators,
      envScanAborted.probe i = ProbeOutcome.found) ∧
    is_logged_in envScanAborted = false ∧
    List.Perm
      [Indicator.directSvg, Indicator.directLink, Indicator.accountsEdit,
       Indicator.followButton, Indicator.loggedInDiv]
      logged_in_indicators ∧
    scan_result envScanAborted
      [Indicator.directSvg, Indicator.directLink, Indicator.accountsEdit,
       Indicator.followButton, Indicator.loggedInDiv] = true := by
  refine ⟨rfl, by decide, rfl, ?_, rfl⟩
  unfold logged_in_indicators
  exact List.Perm.swap _ _ _

/-- C3 as amended: provided the root navigation succeeds and no indicator
wait is aborted by a non-timeout driver exception, `is_logged_in` returns
`true` iff at least one logged-in marker is located within its bounded
wait, and the order of the indicator list affects only which marker
short-circuits the scan, never the boolean result (any permutation yields
the same result); unconditionally, a failed navigation, a scan aborted by
a driver exception (`scan_indicators` ending in `some false`, which can
mask markers later in the order), and a scan finding no marker
(`scan_indicators` ending in `none`, whether or not login-page markers
are then found) all return `false`. -/
theorem is_logged_in_amended (env : Env) :
    (env.probeNavOk = true →
      (∀ i ∈ logged_in_indicators,
        env.probe i ≠ ProbeOutcome.driverError) →
      ((is_logged_in env = true ↔
          ∃ i ∈ logged_in_indicators,
            env.probe i = ProbeOutcome.found) ∧
        ∀ l : List Indicator, l.Perm logged_in_indicators →
          scan_result env l = scan_result env logged_in_indicators)) ∧
    (env.probeNavOk = false → is_logged_in env = false) ∧
    (scan_indicators env.probe logged_in_indicators = some false →
      is_logged_in env = false) ∧
    (scan_indicators env.probe logged_in_indicators = none →
      is_logged_in env = false) := by
  refine ⟨fun hnav h => ?_, fun hnav => by simp [is_logged_in, hnav],
    fun habort => ?_, fun hnone => ?_⟩
  · have hbase : is_logged_in env = scan_result env logged_in_indicators := by
      simp [is_logged_in, hnav]
    constructor
    · rw [hbase, scan_result_eq_any env logged_in_indicators h]
      simp [List.any_eq_true]
    · intro l hperm
      have hl : ∀ i ∈ l, env.probe i ≠ ProbeOutcome.driverError :=
        fun i hi => h i (hperm.mem_iff.mp hi)
      rw [scan_result_eq_any env l hl,
        scan_result_eq_any env logged_in_indicators h]
      by_cases hx : ∃ i ∈ logged_in_indicators,
          env.probe i = ProbeOutcome.found
      · obtain ⟨i, hi, hfound⟩ := hx
        have h1 : l.any (fun i => env.probe i == ProbeOutcome.found)
            = true := by
          simp [List.any_eq_true]
          exact ⟨i, hperm.mem_iff.mpr hi, hfound⟩
        have h2 : logged_in_indicators.any
            (fun i => env.probe i == ProbeOutcome.found) = true := by
          simp [List.any_eq_true]
          exact ⟨i, hi, hfound⟩
        rw [h1, h2]
      · have h1 : l.any (fun i => env.probe i == ProbeOutcome.found)
            = false := by
          simp [List.any_eq_false]
          intro i hi
          exact fun hf => hx ⟨i, hperm.mem_iff.mp hi, hf⟩
        have h2 : logged_in_indicators.any
            (fun i => env.probe i == ProbeOutcome.found) = false := by
          simp [List.any_eq_false]
          intro i hi
          exact fun hf => hx ⟨i, hi, hf⟩
        rw [h1, h2]
  · by_cases hnav : env.probeNavOk = false <;>
      simp [is_logged_in, scan_result, hnav, habort]
  · by_cases hnav : env.probeNavOk = false <;>
      simp [is_logged_in, scan_result, hnav, hnone, login_scan_eq_false]

/-- Witness for C3 as amended: in the healthy environment the navigation
succeeds, no wait errors, and the probe result matches the existence of a
found marker. -/
theorem is_logged_in_amended_w :
    envBase.probeNavOk = true ∧
    (∀ i ∈ logged_in_indicators,
      envBase.probe i ≠ ProbeOutcome.driverError) ∧
    (is_logged_in envBase = true ↔
      ∃ i ∈ logged_in_indicators, envBase.probe i = ProbeOutcome.found) :=
  ⟨rfl, by decide, ((is_logged_in_amended envBase).1 rfl (by decide)).1⟩

/-- The run of `login_instagram` reaches the submit click: navigation
succeeds, the cookie-banner wait does not raise a driver error, the
username field is found, and the password field and submit button
lookups return. -/
def reaches_submit (env : Env) : Prop :=
  env.navLoginOk = true ∧
  env.acceptCookiesOutcome ≠ ProbeOutcome.driverError ∧
  env.usernameFieldOutcome = ProbeOutcome.found ∧
  env.passwordFieldOk = true ∧
  env.submitBtnOk = true

/-- On a run that reaches the submit click, `login_instagram` produces the
full trace — credentials, submit, challenge dismissal, then the
verification wait — and returns the verification outcome. -/
theorem login_instagram_reaches (env : Env) (h : reaches_submit env) :
    login_instagram env =
      (decide (env.verifyOutcome = ProbeOutcome.found),
       [LEvent.navigate, LEvent.acceptCookies, LEvent.typeUsername,
        LEvent.typePassword, LEvent.submit]
         ++ handle_login_challenges env ++ [LEvent.verifyWait]) := by
  obtain ⟨h1, h2, h3, h4, h5⟩ := h
  unfold login_instagram
  rw [h1, h3]
  cases ha : env.acceptCookiesOutcome <;>
    simp [h4, h5] <;>
    first
      | (cases hv : env.verifyOutcome <;> simp)
      | exact absurd ha h2

/-- On a run that does not reach the submit click, `login_instagram`
returns `false`. -/
theorem login_instagram_not_reaches (env : Env)
    (h : ¬ reaches_submit env) : (login_instagram env).1 = false := by
  unfold reaches_submit at h
  unfold login_instagram
  cases h1 : env.navLoginOk <;> cases h2 : env.acceptCookiesOutcome <;>
    cases h3 : env.usernameFieldOutcome <;>
    cases h4 : env.passwordFieldOk <;> cases h5 : env.submitBtnOk <;>
    simp_all <;> cases hv : env.verifyOutcome <;> simp_all

/-- C4 counterexample: on a concrete fully successful run the code runs
the challenge dismissal before the bounded post-login verification wait,
so the claimed order (verification first, dismissal after) is false. -/
theorem login_instagram_order_cex :
    (login_instagram envBase).1 = true ∧
    (login_instagram envBase).2 =
      [LEvent.navigate, LEvent.acceptCookies, LEvent.typeUsername,
       LEvent.typePassword, LEvent.submit, LEvent.dismissSaveInfo,
       LEvent.dismissNotifications, LEvent.verifyWait] ∧
    (login_instagram envBase).2.indexOf LEvent.dismissSaveInfo <
      (login_instagram envBase).2.indexOf LEvent.verifyWait ∧
    ¬ ((login_instagram envBase).2.indexOf LEvent.verifyWait <
      (login_instagram envBase).2.indexOf LEvent.dismissSaveInfo) := by
  refine ⟨rfl, rfl, by decide, by decide⟩

/-- C4 as amended: on every run that reaches the submit click,
`login_instagram` types the username, then the password, submits, runs the
challenge dismissal, and only then performs the bounded wait for the
post-login marker; it returns `true` exactly when that verification
succeeds, and the outcome of either dismissal attempt (dialog present,
absent, or erroring) never changes the result — absence of a dialog is
success, not an error. -/
theorem login_instagram_amended (env : Env) (h : reaches_submit env) :
    ((login_instagram env).1 = true ↔
      env.verifyOutcome = ProbeOutcome.found) ∧
    ((login_instagram env).2.indexOf LEvent.typeUsername <
        (login_instagram env).2.indexOf LEvent.typePassword ∧
      (login_instagram env).2.indexOf LEvent.typePassword <
        (login_instagram env).2.indexOf LEvent.submit ∧
      (login_instagram env).2.indexOf LEvent.submit <
        (login_instagram env).2.indexOf LEvent.dismissSaveInfo ∧
      (login_instagram env).2.indexOf LEvent.dismissSaveInfo <
        (login_instagram env).2.indexOf LEvent.verifyWait) ∧
    ∀ d1 d2, (login_instagram
        { env with saveInfoDialog := d1, notifDialog := d2 }).1 =
      (login_instagram env).1 := by
  have h' : ∀ d1 d2, reaches_submit
      { env with saveInfoDialog := d1, notifDialog := d2 } := by
    intro d1 d2
    exact h
  refine ⟨?_, ?_, ?_⟩
  · rw [login_instagram_reaches env h]
    simp
  · rw [login_instagram_reaches env h]
    unfold handle_login_challenges
    cases hs : env.saveInfoDialog <;> simp <;> decide
  · intro d1 d2
    rw [login_instagram_reaches env h, login_instagram_reaches _ (h' d1 d2)]

/-- Witness for C4 as amended: the healthy environment reaches submit, and
the amended ordering facts hold on it. -/
theorem login_instagram_amended_w :
    reaches_submit envBase ∧
    ((login_instagram envBase).1 = true ↔
      envBase.verifyOutcome = ProbeOutcome.found) :=
  ⟨⟨rfl, by decide, rfl, rfl, rfl⟩,
    (login_instagram_amended envBase ⟨rfl, by decide, rfl, rfl, rfl⟩).1⟩

/-- The injection loop keeps exactly the cookies the driver accepts, in
order, processing every element of the list. -/
theorem inject_cookies_eq_filter (tryAdd : Cookie → Except Unit Unit)
    (cs : List Cookie) :
    inject_cookies tryAdd cs = cs.filter (addSucceeds tryAdd) := by
  induction cs with
  | nil => rfl
  | cons c rest ih =>
    unfold inject_cookies
    cases hc : tryAdd c <;>
      simp [List.filter_cons, addSucceeds, hc, ih]

/-- C5: for every cookie set containing one or more malformed entries, the
cookie-injection loop of `load_session` injects every well-formed cookie
and skips each malformed one without aborting the loop or raising to the
caller: the injected list is exactly the accepted sublist, each per-cookie
failure being swallowed by the per-iteration handler. -/
theorem inject_cookies_skips_malformed (tryAdd : Cookie → Except Unit Unit)
    (cs : List Cookie)
    (hmal : ∃ c ∈ cs, addSucceeds tryAdd c = false) :
    inject_cookies tryAdd cs = cs.filter (addSucceeds tryAdd) ∧
      (∀ c ∈ cs, addSucceeds tryAdd c = true →
        c ∈ inject_cookies tryAdd cs) ∧
      (∀ c ∈ cs, addSucceeds tryAdd c = false →
        c ∉ inject_cookies tryAdd cs) := by
  refine ⟨inject_cookies_eq_filter tryAdd cs, ?_, ?_⟩
  · intro c hc hok
    rw [inject_cookies_eq_filter]
    exact List.mem_filter.mpr ⟨hc, hok⟩
  · intro c _ hbad hmem
    rw [inject_cookies_eq_filter] at hmem
    exact absurd ((List.mem_filter.mp hmem).2) (by simp [hbad])

/-- Witness for C5: a two-cookie set with one rejected entry injects
exactly the accepted cookie. -/
theorem inject_cookies_skips_malformed_w :
    (∃ c ∈ [cookieGood, cookieBad],
      addSucceeds tryAddRejecting c = false) ∧
    inject_cookies tryAddRejecting [cookieGood, cookieBad] =
      [cookieGood, cookieBad].filter (addSucceeds tryAddRejecting) :=
  ⟨by decide,
    (inject_cookies_skips_malformed tryAddRejecting [cookieGood, cookieBad]
      (by decide)).1⟩

/-- The cookie step of `load_session` never changes the in-memory state,
whether it succeeds, finds no cookie file, or escapes with an exception
caught by the outer handler. -/
theorem load_cookies_step_state (env : Env) (fs : FS) (st : BotState) :
    (match load_cookies_step env fs st with
      | Except.ok r => r
      | Except.error s => (s, false)).1 = st := by
  unfold load_cookies_step
  cases fs.cookiesFile <;> simp
  cases env.loadNavOk <;> cases env.refreshOk <;> simp

/-- C6: `load_session` is the `try` body behind an
`except Exception: return False`, so it returns to its caller on every
filesystem state rather than propagating a fault (it is a total function
by construction), and on a missing or corrupt (undeserializable) session
file the in-memory state is untouched: starting from the empty
processed-message set of `__init__`, it stays empty. -/
theorem load_session_missing_or_corrupt (env : Env) (fs : FS)
    (st : BotState)
    (hstate : st.processed_messages = [])
    (hbad : fs.sessionFile = FileState.missing ∨
      fs.sessionFile = FileState.corrupt) :
    (load_session env fs st).1.processed_messages = [] := by
  rcases hbad with hb | hb
  · have : (load_session env fs st).1 = st := by
      unfold load_session load_session_body
      rw [hb]
      exact load_cookies_step_state env fs st
    rw [this, hstate]
  · have : (load_session env fs st).1 = st := by
      unfold load_session load_session_body
      rw [hb]
    rw [this, hstate]

/-- Witness for C6: with both files corrupt, `load_session` returns with
the processed set still empty. -/
theorem load_session_missing_or_corrupt_w :
    initState.processed_messages = [] ∧
      (load_session envBase
        { sessionFile := FileState.corrupt,
          cookiesFile := FileState.corrupt }
        initState).1.processed_messages = [] :=
  ⟨rfl,
    load_session_missing_or_corrupt envBase
      { sessionFile := FileState.corrupt,
        cookiesFile := FileState.corrupt }
      initState rfl (Or.inr rfl)⟩

/-- A good session file loads its processed-message list as a Python set,
whatever the cookie file and driver do afterwards. -/
theorem load_session_good (env : Env) (fs : FS) (st : BotState)
    (d : SessionData) (h : fs.sessionFile = FileState.good d) :
    (load_session env fs st).1.processed_messages =
      pySetOfList d.processed_messages := by
  unfold load_session load_session_body
  rw [h]
  exact congrArg BotState.processed_messages
    (load_cookies_step_state env fs
      { processed_messages := pySetOfList d.processed_messages })

/-- A `save_session` that reports success had all three of its effectful
steps succeed. -/
theorem save_session_ok_flags (env : Env) (st : BotState) (fs : FS)
    (hsave : (save_session env st fs).2 = true) :
    env.getCookiesOk = true ∧ env.writeCookiesOk = true ∧
      env.writeSessionOk = true := by
  unfold save_session at hsave
  cases hg : env.getCookiesOk <;> cases hw : env.writeCookiesOk <;>
    cases hs : env.writeSessionOk <;> simp_all

/-- A fully successful `save_session` leaves the session file holding the
session record built from the current state. -/
theorem save_session_success (env : Env) (st : BotState) (fs : FS)
    (hg : env.getCookiesOk = true) (hw : env.writeCookiesOk = true)
    (hs : env.writeSessionOk = true) :
    (save_session env st fs).1.sessionFile =
      FileState.good
        { last_login := env.nowIso, user_agent := env.userAgent,
          current_url := env.currentUrl,
          processed_messages := st.processed_messages } := by
  unfold save_session
  rw [hg, hw, hs]
  simp

/-- C7: round-trip persistence preserves the processed-message set: for
every state whose `save_session` succeeds, a subsequent `load_session`
(under any environment) yields a `processed_messages` set identical, as a
set, to the one saved. -/
theorem save_load_round_trip (env env2 : Env) (st st0 : BotState) (fs : FS)
    (hsave : (save_session env st fs).2 = true) :
    ((load_session env2 (save_session env st fs).1 st0).1.processed_messages).toFinset
      = st.processed_messages.toFinset := by
  obtain ⟨hg, hw, hs⟩ := save_session_ok_flags env st fs hsave
  rw [load_session_good env2 _ st0 _
    (save_session_success env st fs hg hw hs)]
  unfold pySetOfList
  ext a
  simp [List.mem_dedup]

/-- Witness for C7: a concrete state round-trips through `save_session`
and `load_session` with its processed-message set intact. -/
theorem save_load_round_trip_w :
    (save_session envBase { processed_messages := ["0_11", "1_22"] }
        fsEmpty).2 = true ∧
    ((load_session envBase
        (save_session envBase { processed_messages := ["0_11", "1_22"] }
          fsEmpty).1
        initState).1.processed_messages).toFinset
      = (["0_11", "1_22"] : List String).toFinset :=
  ⟨rfl,
    save_load_round_trip envBase envBase
      { processed_messages := ["0_11", "1_22"] } initState fsEmpty rfl⟩

/-- C8: the process exit code is 0 exactly on a fully successful run —
configuration complete, Buffer connectivity test passed, and the scheduled
check succeeded — and 1 on any configuration, connectivity, or
authentication failure; a missing required credential or token exits 1
before any browser work is performed.  Only the booleans of the top-level
orchestration reach the process boundary, mapped to an exit code, as
`main_run` records. -/
theorem main_exit_codes (cfg : Config) (env : Env) (fs : FS) :
    ((main_run cfg env fs).1 = 0 ∨ (main_run cfg env fs).1 = 1) ∧
    ((main_run cfg env fs).1 = 0 ↔
      missing_vars cfg = [] ∧ test_buffer_connection env = true ∧
        (run_scheduled_check env fs initState).ok = true) ∧
    (missing_vars cfg ≠ [] → main_run cfg env fs = (1, false)) := by
  cases hmv : missing_vars cfg with
  | nil =>
    cases hb : test_buffer_connection env <;>
      cases hr : (run_scheduled_check env fs initState).ok <;>
        simp [main_run, hmv, hb, hr]
  | cons a l => simp [main_run, hmv]

/-- Witness for C8: a complete configuration with a healthy environment
exits with code 0 or 1 (here 0). -/
theorem main_exit_codes_w :
    ((main_run
        { username := some "user", password := some "pw",
          buffer_token := some "tok", buffer_profile_id := some "prof" }
        envBase fsEmpty).1 = 0 ∨
      (main_run
        { username := some "user", password := some "pw",
          buffer_token := some "tok", buffer_profile_id := some "prof" }
        envBase fsEmpty).1 = 1) :=
  (main_exit_codes
    { username := some "user", password := some "pw",
      buffer_token := some "tok", buffer_profile_id := some "prof" }
    envBase fsEmpty).1

/-- C10: `add_to_buffer_fixed` adds the message id to
`processed_messages` if and only if a URL is present and the publish POST
returns HTTP 200; on any failure — missing URL, non-200 response, or a
raised exception — it returns `false` and leaves the state unchanged. -/
theorem add_to_buffer_post_iff (env : Env) (st : BotState)
    (msg : Message) :
    ((add_to_buffer_fixed env st msg).2 = true ↔
      msg.url.isSome = true ∧ env.postStatus msg = Except.ok 200) ∧
    ((add_to_buffer_fixed env st msg).2 = true →
      (add_to_buffer_fixed env st msg).1.processed_messages =
        pySetInsert msg.id st.processed_messages) ∧
    ((add_to_buffer_fixed env st msg).2 = false →
      (add_to_buffer_fixed env st msg).1 = st) := by
  unfold add_to_buffer_fixed
  cases hu : msg.url with
  | none => simp
  | some u =>
    cases hp : env.postStatus msg with
    | error e => simp
    | ok code => by_cases h200 : code = 200 <;> simp [h200]

/-- Witness for C10: a message with a URL whose POST answers 200 is
reported as posted. -/
theorem add_to_buffer_post_iff_w :
    ((add_to_buffer_fixed envBase initState
        { id := "0_12345", content := "reel link",
          url := some "https://www.instagram.com/reel/abc/" }).2 = true ↔
      (Message.url
        { id := "0_12345", content := "reel link",
          url := some "https://www.instagram.com/reel/abc/" }).isSome = true ∧
      envBase.postStatus
        { id := "0_12345", content := "reel link",
          url := some "https://www.instagram.com/reel/abc/" } =
        Except.ok 200) :=
  (add_to_buffer_post_iff envBase initState
    { id := "0_12345", content := "reel link",
      url := some "https://www.instagram.com/reel/abc/" }).1
